import Mathlib

/-
Verification of the provider-adaptation and channel-health core of the relay
gateway: the Gemini adaptor (request-URL resolution and the image-generation
response handler), the Gemini prompt-cache manager (two revisions of the
cache module appear in the repository), and the channel tester with its
single-flight full-pool batch.

Go strings are modelled as lists of characters; Go ints as Int or Nat; Go
float64 arithmetic as rational arithmetic with explicit rounding and
truncation functions mirroring math.Round and Go int conversion; fallible
calls as Except; a Go panic as the none case of an Option result. Network
and store collaborators (Redis, the upstream Gemini cache API) are passed in
as oracle parameters, so that each code path is a pure function of its
inputs.
-/

set_option linter.unusedVariables false
set_option maxRecDepth 4000

/-- A Go string value, modelled as its list of characters. -/
abbrev Str := List Char

/-- Embed a Lean string literal as a Go string value. -/
def str (s : String) : Str := s.data

/- ----------------------------------------------------------------------
Health monitor: testAllChannels (controller/channel-test.go, lines 381-460).
The process-wide state is the pair of the mutex testAllChannelsLock and the
boolean testAllChannelsRunning. The source holds the lock across the check
of the flag and the assignment setting it to true (lines 385-391), so that
check-and-set is one atomic critical section; the embedding therefore models
one invocation as a single transition on the flag.
---------------------------------------------------------------------- -/

/-- Outcome of one invocation of testAllChannels, projected onto the
single-flight state: whether the call returned the conflict error (line 388),
whether it returned the channel-list fetch error (line 395), the value of
testAllChannelsRunning at the moment the call returns, and whether a
background batch goroutine was spawned (line 402). -/
structure TestAllOutcome where
  conflictError : Bool
  fetchError : Bool
  flagAfterReturn : Bool
  batchSpawned : Bool
deriving DecidableEq

/-- Embedding of testAllChannels (controller/channel-test.go, lines 384-460).
Inputs: the current value of testAllChannelsRunning, and whether
model.GetAllChannels succeeds. Under the lock: if the flag is already true
the call returns the conflict error at once; otherwise the flag is set to
true and the lock released. Then the channel list is fetched; on fetch error
the function returns that error (line 395) without touching the flag again.
Otherwise the batch goroutine is spawned, whose deferred cleanup (lines
403-407) resets the flag when the batch ends. -/
def testAllChannels (running : Bool) (fetchOk : Bool) : TestAllOutcome :=
  if running then
    { conflictError := true, fetchError := false,
      flagAfterReturn := true, batchSpawned := false }
  else if fetchOk = false then
    { conflictError := false, fetchError := true,
      flagAfterReturn := true, batchSpawned := false }
  else
    { conflictError := false, fetchError := false,
      flagAfterReturn := true, batchSpawned := true }

/-- The value of testAllChannelsRunning once the invocation and any batch it
spawned have finished. The deferred reset in the batch goroutine (lines
403-407) runs both when the channel loop completes normally and when a panic
escapes it, so a spawned batch always leaves the flag false; when no batch
was spawned the flag keeps the value it had when testAllChannels returned. -/
def finalFlag (o : TestAllOutcome) (batchPanics : Bool) : Bool :=
  if o.batchSpawned then false else o.flagAfterReturn

/- ----------------------------------------------------------------------
Gemini adaptor: the image-generation response handler
(relay/channel/gemini/adaptor.go, GeminiImageHandler, lines 211-263).
Reading and JSON-decoding the HTTP body are transport steps abstracted away:
the handler is modelled from the decoded GeminiImageResponse on; the
timestamp written into the canonical response (common.GetTimestamp) is an
input. Serialising the canonical response cannot fail for this struct, so
the marshal-error branch is vacuous in the model.
---------------------------------------------------------------------- -/

/-- Error kinds of types.NewAPIError that this development distinguishes. -/
inductive ErrorCode
  | badResponseBody
deriving DecidableEq

/-- A types.NewAPIError, reduced to its kind and message. -/
structure NewAPIError where
  code : ErrorCode
  message : Str
deriving DecidableEq

/-- One prediction of the upstream image response: the base64 image payload
and the content-filter reason (empty when the image was not filtered). -/
structure GeminiImagePrediction where
  bytesBase64Encoded : Str
  raiFilteredReason : Str
deriving DecidableEq

/-- The decoded upstream image-generation response. -/
structure GeminiImageResponse where
  predictions : List GeminiImagePrediction
deriving DecidableEq

/-- One entry of the canonical image response (dto.ImageData). -/
structure ImageData where
  b64Json : Str
deriving DecidableEq

/-- The canonical image response (dto.ImageResponse). -/
structure ImageResponse where
  created : Int
  data : List ImageData
deriving DecidableEq

/-- The canonical usage record (dto.Usage), reduced to the fields the
handlers under verification produce. -/
structure Usage where
  promptTokens : Int
  completionTokens : Int
  totalTokens : Int
deriving DecidableEq

/-- The fixed per-image token constant of GeminiImageHandler (line 253). -/
def imageTokens : Int := 258

/-- Embedding of GeminiImageHandler (adaptor.go, lines 211-263) from the
decoded response on. An empty prediction list is the error "no images
generated" (lines 223-225). Otherwise the loop over predictions (lines
233-240) appends every prediction whose RaiFilteredReason is empty and skips
the rest, and usage counts 258 tokens per generated image with zero
completion tokens (lines 253-260). -/
def geminiImageHandler (created : Int) (resp : GeminiImageResponse) :
    Except NewAPIError (ImageResponse × Usage) :=
  if resp.predictions.length = 0 then
    .error { code := .badResponseBody, message := str "no images generated" }
  else
    let data := resp.predictions.foldl
      (fun acc p =>
        if p.raiFilteredReason ≠ [] then acc
        else acc ++ [{ b64Json := p.bytesBase64Encoded }])
      []
    let generatedImages : Int := data.length
    .ok ({ created := created, data := data },
         { promptTokens := imageTokens * generatedImages,
           completionTokens := 0,
           totalTokens := imageTokens * generatedImages })

/-- The predictions of a response that were not content-filtered. -/
def acceptedPredictions (resp : GeminiImageResponse) : List GeminiImagePrediction :=
  resp.predictions.filter (fun p => p.raiFilteredReason = [])

/-- A response whose single prediction is content-filtered, for evaluating
the handler on an all-filtered input. -/
def allFilteredResponse : GeminiImageResponse :=
  { predictions := [{ bytesBase64Encoded := str "ZmFrZQ==",
                      raiFilteredReason := str "safety" }] }

/-- A response with one filtered and one unfiltered prediction. -/
def mixedResponse : GeminiImageResponse :=
  { predictions := [{ bytesBase64Encoded := str "ZmFrZQ==",
                      raiFilteredReason := str "safety" },
                    { bytesBase64Encoded := str "a2VwdA==",
                      raiFilteredReason := [] }] }

/- ----------------------------------------------------------------------
Gemini prompt-cache manager (relay/channel/gemini/cache.go, and the revised
module kept in the repository with an unknown file name, here part000). Both
revisions share the data model and the helper semantics of strings.Split
with the single-character separator " ".
---------------------------------------------------------------------- -/

/-- Inline (base64) data of one request part. -/
structure GeminiInlineData where
  mimeType : Str
  data : Str
deriving DecidableEq

/-- File-reference data of one request part. -/
structure GeminiFileData where
  mimeType : Str
  fileUri : Str
deriving DecidableEq

/-- One part of a Gemini chat content. -/
structure GeminiPart where
  text : Str
  inlineData : Option GeminiInlineData
  fileData : Option GeminiFileData
deriving DecidableEq

/-- One content turn of a Gemini chat request. -/
structure GeminiChatContent where
  role : Str
  parts : List GeminiPart
deriving DecidableEq

/-- The native Gemini chat request, reduced to the fields the cache manager
reads. SystemInstructions is a pointer in the source, so it is an Option
here. -/
structure GeminiChatRequest where
  contents : List GeminiChatContent
  systemInstructions : Option GeminiChatContent
deriving DecidableEq

/-- Embedding of Go strings.Split with a one-character separator: the input
split at every occurrence of the separator, so the result has one piece more
than the number of separator occurrences, and splitting the empty string
yields one empty piece. -/
def goSplitChar (sep : Char) : Str → List Str
  | [] => [[]]
  | c :: cs =>
    match goSplitChar sep cs with
    | [] => [[]]
    | w :: ws => if c = sep then [] :: w :: ws else (c :: w) :: ws

/-- GeminiCacheMinTokenThreshold (cache.go line 15, part000 line 15). -/
def geminiCacheMinTokenThreshold : Nat := 4096

/-- Embedding of CountTokensFromParts (cache.go, lines 140-150): for every
part of every content whose Text is nonempty, add the length of
strings.Split of the text on the one-character separator " ". -/
def countTokensFromParts (contents : List GeminiChatContent) : Nat :=
  contents.foldl
    (fun count content =>
      content.parts.foldl
        (fun count part =>
          if part.text ≠ [] then count + (goSplitChar ' ' part.text).length
          else count)
        count)
    0

/-- Embedding of ShouldEnableGeminiCache (cache.go, lines 17-29). The
EnableCache switch of the Gemini settings is the first argument. -/
def shouldEnableGeminiCache (enableCache : Bool) (model : Str)
    (contents : List GeminiChatContent) : Bool :=
  if !enableCache then false
  else if countTokensFromParts contents < geminiCacheMinTokenThreshold then false
  else true

/-- Whether a character is whitespace in the ordinary word-count sense. Used
only by the spec-side word count below. -/
def isWhitespaceChar (c : Char) : Bool :=
  c = ' ' || c = '\t' || c = '\n' || c = '\r'

/-- Modelled from the spec wording: the whitespace-delimited word count of a
text, that is the number of maximal runs of non-whitespace characters. This
definition follows the words of the spec and stands beside the source
definition countTokensFromParts for comparison. -/
def specWordCount (s : Str) : Nat :=
  (s.foldl
    (fun st c =>
      if isWhitespaceChar c then (st.1, false)
      else if st.2 then st else (st.1 + 1, true))
    ((0, false) : Nat × Bool)).1

/-- Modelled from the spec wording: the token estimate of a content list as
the whitespace-delimited word count of its text parts. -/
def specTokenEstimate (contents : List GeminiChatContent) : Nat :=
  contents.foldl
    (fun n content =>
      content.parts.foldl (fun n part => n + specWordCount part.text) n)
    0

/-- Embedding of ExtractLastUserPromptText for one part: the text when
nonempty, then mime-type and payload of inline data, then mime-type and URI
of file data (cache.go, lines 156-172). -/
def partPromptPieces (part : GeminiPart) : Str :=
  (if part.text ≠ [] then part.text else []) ++
  (match part.inlineData with
   | some d => d.mimeType ++ str ":" ++ d.data
   | none => []) ++
  (match part.fileData with
   | some f => f.mimeType ++ str ":" ++ f.fileUri
   | none => [])

/-- Embedding of ExtractLastUserPromptText (cache.go, lines 152-177): walk
the contents from the end, and concatenate the pieces of the first content
whose role is user; the empty string when there is none. -/
def extractLastUserPromptText (request : GeminiChatRequest) : Str :=
  match request.contents.reverse.find? (fun content => content.role == str "user") with
  | some content => content.parts.foldl (fun b part => b ++ partPromptPieces part) []
  | none => []

/-- Go fmt semantics of the %s verb applied to an operand of type int: fmt
has no String method for it and prints the wrong-verb notation, percent,
bang, s, and the type and value in parentheses. cache.go line 38 passes the
int channelID to a %s verb, so this function is the exact string that line
produces for the channel id. -/
def goSprintfSInt (n : Int) : Str :=
  str "%!s(int=" ++ (toString n).data ++ str ")"

/-- The Redis key built by cache.go line 38 for a channel-scoped cache
mapping: the literal format string gemini_cache:%s:%s applied to the int
channel id and the hash. -/
def geminiRedisKey (channelID : Int) (hash : Str) : Str :=
  str "gemini_cache:" ++ goSprintfSInt channelID ++ str ":" ++ hash

/-- A write of one key-value pair into the shared store, with the
time-to-live passed to the store at write time (time.Hour is 3600 s). -/
structure StoreWrite where
  key : Str
  value : Str
  ttlSeconds : Nat
deriving DecidableEq

/-- What one call of GetOrCreateGeminiCache returns together with the store
writes it issued. Errors are their messages. -/
structure CacheCallResult where
  result : Except Str Str
  writes : List StoreWrite

/-- Embedding of GetOrCreateGeminiCache (cache.go, lines 31-69). Collaborator
calls are oracle parameters: md5 is common.GetMD5Hash, storeGet the Redis
lookup of the key, lookup is LookupGeminiCacheByID on the stored handle, and
create is CreateGeminiCache. When caching is not enabled for the request the
call returns the empty handle at once. On a Redis hit whose handle the
upstream existence check confirms, that handle is returned. Every other
outcome of the store and the existence check falls through to creation; a
creation error is the only error the caller sees, and on creation success
the new mapping is written back to the store with a one-hour TTL (the write
error itself is discarded, line 64). -/
def getOrCreateGeminiCache (enableCache redisEnabled : Bool) (md5 : Str → Str)
    (storeGet : Except Str Str) (lookup : Str → Except Str Bool)
    (create : Except Str Str) (channelID : Int) (model : Str)
    (request : GeminiChatRequest) : CacheCallResult :=
  if !shouldEnableGeminiCache enableCache model request.contents then
    { result := .ok [], writes := [] }
  else
    let prompt := extractLastUserPromptText request
    let hash := md5 (model ++ str "|" ++ prompt)
    let redisKey := geminiRedisKey channelID hash
    let hit : Option Str :=
      if redisEnabled then
        match storeGet with
        | .ok cachedID =>
          if cachedID ≠ [] then
            match lookup cachedID with
            | .ok true => some cachedID
            | _ => none
          else none
        | .error _ => none
      else none
    match hit with
    | some cachedID => { result := .ok cachedID, writes := [] }
    | none =>
      match create with
      | .error e => { result := .error e, writes := [] }
      | .ok newID =>
        { result := .ok newID,
          writes := if redisEnabled then [⟨redisKey, newID, 3600⟩] else [] }

/- ----------------------------------------------------------------------
The revised cache module (src/unnamed/part_000): GetOrCreateGeminiCache with
the four-result signature. Its CountTokensFromParts takes a pointer to a
single content and ranges over its Parts, so a nil pointer makes the Go
runtime panic; the embedding returns Option, none standing for that panic.
---------------------------------------------------------------------- -/

namespace part000

/-- Embedding of CountTokensFromParts (part000, lines 153-161): the function
receives a pointer to one content and immediately ranges over content.Parts,
so a nil argument dereferences a nil pointer and panics (none). -/
def countTokensFromParts (content : Option GeminiChatContent) : Option Nat :=
  match content with
  | none => none
  | some c =>
    some (c.parts.foldl
      (fun count part =>
        if part.text ≠ [] then count + (goSplitChar ' ' part.text).length
        else count)
      0)

/-- Embedding of ShouldEnableGeminiCache (part000, lines 17-28), which takes
the precomputed token count. -/
def shouldEnableGeminiCache (enableCache : Bool) (model : Str)
    (tokenCount : Nat) : Bool :=
  if !enableCache then false
  else if tokenCount < geminiCacheMinTokenThreshold then false
  else true

/-- The JSON envelope written to the store by part000, lines 70-74:
json.Marshal of the map with the keys cache_name and channel_id (Go orders
map keys alphabetically). Handle strings needing JSON escaping do not occur
here, so escaping is elided. -/
def jsonEnvelope (newID : Str) (channelID : Int) : Str :=
  str "\x7b\"cache_name\":\"" ++ newID ++ str "\",\"channel_id\":" ++
    (toString channelID).data ++ str "\x7d"

/-- Result of one call of the four-result GetOrCreateGeminiCache: the
returned triple (handle, created flag, estimated tokens) or an error, plus
the store writes issued. -/
structure CacheCallResult4 where
  result : Except Str (Str × Bool × Nat)
  writes : List StoreWrite

/-- Embedding of GetOrCreateGeminiCache (part000, lines 30-83). jsonHash is
HashSystemInstructions on a non-nil content (MD5 over the JSON
serialisation); parseCacheName extracts cache_name from a stored envelope
(the empty string when unmarshalling fails, since the source discards the
unmarshal error); storeGet, lookup and create are as in the first revision.
Line 31 calls CountTokensFromParts on the SystemInstructions pointer before
any nil test, so a request without system instructions panics (none) before
the nil guard of line 36 can return. -/
def getOrCreateGeminiCache (enableCache redisEnabled : Bool)
    (jsonHash : GeminiChatContent → Str) (parseCacheName : Str → Str)
    (storeGet : Except Str Str) (lookup : Str → Except Str Bool)
    (create : Except Str Str) (channelID : Int) (model : Str)
    (request : GeminiChatRequest) : Option CacheCallResult4 :=
  match countTokensFromParts request.systemInstructions with
  | none => none
  | some tokenCount =>
    if !shouldEnableGeminiCache enableCache model tokenCount then
      some { result := .ok ([], false, 0), writes := [] }
    else
      match request.systemInstructions with
      | some sys =>
        let hash := jsonHash sys
        let redisKey := str "gemini_cache:" ++ hash
        let hit : Option Str :=
          if redisEnabled then
            match storeGet with
            | .ok val =>
              if val ≠ [] then
                match lookup (parseCacheName val) with
                | .ok true => some (parseCacheName val)
                | _ => none
              else none
            | .error _ => none
          else none
        match hit with
        | some name => some { result := .ok (name, false, 0), writes := [] }
        | none =>
          match create with
          | .error e => some { result := .error e, writes := [] }
          | .ok newID =>
            some { result := .ok (newID, true, tokenCount),
                   writes :=
                     if redisEnabled then
                       [⟨redisKey, jsonEnvelope newID channelID, 3600⟩]
                     else [] }
      | none => some { result := .ok ([], false, 0), writes := [] }

end part000

/- ----------------------------------------------------------------------
Gemini adaptor: request-URL resolution (adaptor.go, GetRequestURL, lines
72-103). The thinking-adapter switch of the Gemini settings and the
configured API version lookup (model_setting) are inputs.
---------------------------------------------------------------------- -/

/-- The relay context fields GetRequestURL reads and writes: the model name
as originally requested, the resolved upstream model name (the field the
function mutates), the base URL and the streaming flag. -/
structure RelayInfo where
  originModelName : Str
  upstreamModelName : Str
  baseUrl : Str
  isStream : Bool
deriving DecidableEq

/-- Embedding of Go strings.Contains: whether sub occurs in s. -/
def goContains : Str → Str → Bool
  | [], sub => sub.isPrefixOf ([] : Str)
  | c :: cs, sub => sub.isPrefixOf (c :: cs) || goContains cs sub

/-- The piece of s before the first occurrence of sep, that is the first
element of Go strings.Split(s, sep); s itself when sep does not occur. -/
def prefixBefore (sep : Str) : Str → Str
  | [] => []
  | c :: cs => if sep.isPrefixOf (c :: cs) then [] else c :: prefixBefore sep cs

/-- Embedding of Go strings.TrimSuffix. -/
def goTrimSuffix (s suffix : Str) : Str :=
  if suffix.isSuffixOf s then s.take (s.length - suffix.length) else s

/-- The three-way thinking-suffix strip that GetRequestURL applies to the
upstream model name when the thinking adapter is enabled (adaptor.go, lines
76-83): the piece before the first -thinking- occurrence, else the name with
a trailing -thinking removed, else with a trailing -nothinking removed, else
the name unchanged. -/
def stripThinkingSuffix (name : Str) : Str :=
  if goContains name (str "-thinking-") then prefixBefore (str "-thinking-") name
  else if (str "-thinking").isSuffixOf name then goTrimSuffix name (str "-thinking")
  else if (str "-nothinking").isSuffixOf name then goTrimSuffix name (str "-nothinking")
  else name

/-- The URL format of GetRequestURL after the suffix handling (adaptor.go,
lines 86-102): the predict endpoint for imagen models, the embedContent
endpoint for the embedding prefixes, and otherwise generateContent or its
streaming variant. -/
def buildGeminiURL (version : Str → Str) (baseUrl : Str) (model : Str)
    (isStream : Bool) : Str :=
  let v := version model
  if (str "imagen").isPrefixOf model then
    baseUrl ++ str "/" ++ v ++ str "/models/" ++ model ++ str ":predict"
  else if (str "text-embedding").isPrefixOf model ||
      (str "embedding").isPrefixOf model ||
      (str "gemini-embedding").isPrefixOf model then
    baseUrl ++ str "/" ++ v ++ str "/models/" ++ model ++ str ":embedContent"
  else
    baseUrl ++ str "/" ++ v ++ str "/models/" ++ model ++ str ":" ++
      (if isStream then str "streamGenerateContent?alt=sse"
       else str "generateContent")

/-- Embedding of GetRequestURL (adaptor.go, lines 72-103), written out as in
the source. When the thinking adapter is enabled the upstream model name is
first rewritten in place by the three suffix rules of lines 76-83; the URL
is then built from the (possibly rewritten) upstream model name, and the
function returns the URL together with the mutated relay context. The
version lookup (model_setting.GetGeminiVersionSetting) is an input. -/
def getRequestURL (thinkingAdapterEnabled : Bool) (version : Str → Str)
    (info : RelayInfo) : Str × RelayInfo :=
  let info :=
    if thinkingAdapterEnabled then
      if goContains info.upstreamModelName (str "-thinking-") then
        { info with upstreamModelName :=
            prefixBefore (str "-thinking-") info.upstreamModelName }
      else if (str "-thinking").isSuffixOf info.upstreamModelName then
        { info with upstreamModelName :=
            goTrimSuffix info.upstreamModelName (str "-thinking") }
      else if (str "-nothinking").isSuffixOf info.upstreamModelName then
        { info with upstreamModelName :=
            goTrimSuffix info.upstreamModelName (str "-nothinking") }
      else info
    else info
  let v := version info.upstreamModelName
  let url :=
    if (str "imagen").isPrefixOf info.upstreamModelName then
      info.baseUrl ++ str "/" ++ v ++ str "/models/" ++
        info.upstreamModelName ++ str ":predict"
    else if (str "text-embedding").isPrefixOf info.upstreamModelName ||
        (str "embedding").isPrefixOf info.upstreamModelName ||
        (str "gemini-embedding").isPrefixOf info.upstreamModelName then
      info.baseUrl ++ str "/" ++ v ++ str "/models/" ++
        info.upstreamModelName ++ str ":embedContent"
    else
      info.baseUrl ++ str "/" ++ v ++ str "/models/" ++
        info.upstreamModelName ++ str ":" ++
        (if info.isStream then str "streamGenerateContent?alt=sse"
         else str "generateContent")
  (url, info)

/- ----------------------------------------------------------------------
Channel tester: the quota computation after a successful test
(controller/channel-test.go, testChannel, lines 200-209). Go float64
expressions are modelled as rationals; math.Round rounds half away from
zero, and the Go conversion int(x) truncates toward zero.
---------------------------------------------------------------------- -/

/-- Go math.Round on a rational: the nearest integer, halves away from
zero. -/
def goRound (q : ℚ) : ℤ :=
  if 0 ≤ q then ⌊q + 1 / 2⌋ else ⌈q - 1 / 2⌉

/-- The Go conversion int(x): truncation toward zero. -/
def goTruncToInt (q : ℚ) : ℤ :=
  if 0 ≤ q then ⌊q⌋ else ⌈q⌉

/-- The pricing fields of helper.ModelPriceHelper that the quota computation
reads. -/
structure PriceData where
  usePrice : Bool
  modelRatio : ℚ
  completionRatio : ℚ
  modelPrice : ℚ
deriving DecidableEq

/-- Embedding of the quota computation of testChannel (channel-test.go,
lines 200-209). Ratio pricing: prompt tokens plus the rounded product of
completion tokens and the completion ratio, the sum scaled by the model
ratio and rounded, floored to 1 when the model ratio is nonzero and the
result is at most 0. Flat pricing: the model price times the quota unit,
converted to int. -/
def computeTestQuota (priceData : PriceData) (quotaPerUnit : ℚ)
    (promptTokens completionTokens : ℤ) : ℤ :=
  if !priceData.usePrice then
    let quota1 := promptTokens +
      goRound ((completionTokens : ℚ) * priceData.completionRatio)
    let quota2 := goRound ((quota1 : ℚ) * priceData.modelRatio)
    if priceData.modelRatio ≠ 0 ∧ quota2 ≤ 0 then 1 else quota2
  else
    goTruncToInt (priceData.modelPrice * quotaPerUnit)

/- ----------------------------------------------------------------------
Concrete inputs used by counterexamples and witnesses.
---------------------------------------------------------------------- -/

/-- A text of 4095 space characters: strings.Split on the space separator
cuts it into 4096 pieces, so the source token estimate is 4096. -/
def spacesText : Str := List.replicate 4095 ' '

/-- A request whose one user content holds the 4096-estimate text, putting
GetOrCreateGeminiCache on its caching path. -/
def bigUserRequest : GeminiChatRequest :=
  { contents := [{ role := str "user",
                   parts := [{ text := spacesText,
                               inlineData := none, fileData := none }] }],
    systemInstructions := none }

/-- A text of 4096 words separated by newlines: its whitespace-delimited
word count is 4096, while it holds no space character, so strings.Split on
the space separator leaves it in one piece. -/
def newlineWordsText : Str := (List.replicate 4096 (['a', '\n'] : Str)).flatten

/-- A content list holding the newline-separated text in one user turn. -/
def newlineWordsContents : List GeminiChatContent :=
  [{ role := str "user",
     parts := [{ text := newlineWordsText,
                 inlineData := none, fileData := none }] }]

/- ----------------------------------------------------------------------
Theorems. Helper lemmas first, then one theorem per claim with its witness
or counterexample.
---------------------------------------------------------------------- -/

/-- The append loop of GeminiImageHandler over the predictions equals the
filter of the unfiltered predictions mapped to canonical image data. -/
theorem imageFoldl_eq (ps : List GeminiImagePrediction) (acc : List ImageData) :
    ps.foldl
      (fun acc p =>
        if p.raiFilteredReason ≠ [] then acc
        else acc ++ [{ b64Json := p.bytesBase64Encoded }])
      acc
      = acc ++ (ps.filter (fun p => p.raiFilteredReason = [])).map
          (fun p => ({ b64Json := p.bytesBase64Encoded } : ImageData)) := by
  induction ps generalizing acc with
  | nil => simp
  | cons p ps ih =>
    simp only [List.foldl_cons]
    by_cases h : p.raiFilteredReason = []
    · rw [if_neg (fun hc => hc h), ih, List.filter_cons_of_pos (by simpa using h)]
      simp
    · rw [if_pos h, ih, List.filter_cons_of_neg (by simpa using h)]

/-- Splitting a run of n separators yields n+1 empty pieces. -/
theorem goSplitChar_replicate_sep (n : Nat) :
    goSplitChar ' ' (List.replicate n ' ') = List.replicate (n + 1) ([] : Str) := by
  induction n with
  | zero => rfl
  | succ n ih => simp [List.replicate_succ, goSplitChar, ih]

/-- Splitting a string in which the separator does not occur leaves it in
one piece. -/
theorem goSplitChar_no_sep (s : Str) (h : ∀ c ∈ s, ¬ c = ' ') :
    goSplitChar ' ' s = [s] := by
  induction s with
  | nil => rfl
  | cons c cs ih =>
    have hc : ¬ c = ' ' := h c (by simp)
    have ih2 := ih (fun x hx => h x (by simp [hx]))
    simp [goSplitChar, ih2, hc]

/-- The token estimate of a request holding one content with one nonempty
text part is the length of the space-split of that text. -/
theorem countTokensFromParts_single (role : Str) (p : GeminiPart) (h : p.text ≠ []) :
    countTokensFromParts [{ role := role, parts := [p] }] =
      (goSplitChar ' ' p.text).length := by
  show (if p.text ≠ [] then 0 + (goSplitChar ' ' p.text).length else 0) = _
  rw [if_pos h, Nat.zero_add]

/-- The 4095-space text is nonempty. -/
theorem spacesText_ne_nil : spacesText ≠ [] := by
  intro h
  have h2 : spacesText.length = 0 := by rw [h]; rfl
  rw [spacesText, List.length_replicate] at h2
  exact absurd h2 (by decide)

/-- The source token estimate of the 4095-space text is 4096. -/
theorem bigUserRequest_tokens : countTokensFromParts bigUserRequest.contents = 4096 :=
  calc countTokensFromParts bigUserRequest.contents
      = (goSplitChar ' ' spacesText).length :=
        countTokensFromParts_single (str "user")
          { text := spacesText, inlineData := none, fileData := none }
          spacesText_ne_nil
    _ = 4096 := by
        unfold spacesText
        rw [goSplitChar_replicate_sep 4095, List.length_replicate]

/-- Caching is enabled for the 4095-space request whenever the configuration
switch is on: its estimate 4096 reaches the threshold. -/
theorem bigUserRequest_cache_enabled (model : Str) :
    shouldEnableGeminiCache true model bigUserRequest.contents = true := by
  unfold shouldEnableGeminiCache
  rw [bigUserRequest_tokens]
  rfl

/-- C1: the claim states that every exit path of testAllChannels leaves the
single-flight flag false once the invocation and any batch it spawned have
finished. Evaluating the code at the failing input, flag initially false and
channel-list fetch failing: the invocation returns the fetch error without
spawning a batch and the flag stays true forever, against the claim. The
paths that do spawn a batch release the flag whether the batch panics or
not. -/
theorem testAllChannels_fetch_error_leaks_flag :
    (testAllChannels false false).fetchError = true ∧
    (testAllChannels false false).batchSpawned = false ∧
    finalFlag (testAllChannels false false) false = true ∧
    (∀ batchPanics : Bool, finalFlag (testAllChannels false true) batchPanics = false) := by
  decide

/-- C2: when the single-flight flag is already true, testAllChannels returns
the conflict error immediately, spawns no second batch and leaves the flag
unchanged, independently of what the channel fetch would return; the check
of the flag and the setting of it are one critical section under the mutex,
modelled here as a single transition because the source holds
testAllChannelsLock across both. -/
theorem testAllChannels_conflict (fetchOk : Bool) :
    testAllChannels true fetchOk =
      { conflictError := true, fetchError := false,
        flagAfterReturn := true, batchSpawned := false } := by
  cases fetchOk <;> rfl

/-- C3 counterexample: on a response whose every prediction is
content-filtered, the handler does not return a BadResponseBody error as the
claim states; it succeeds with an empty canonical list and zero usage. -/
theorem geminiImageHandler_all_filtered_succeeds :
    geminiImageHandler 0 allFilteredResponse =
      .ok ({ created := 0, data := [] },
           { promptTokens := 0, completionTokens := 0, totalTokens := 0 }) ∧
    ∀ e : NewAPIError, geminiImageHandler 0 allFilteredResponse ≠ .error e :=
  ⟨rfl, fun e h => Except.noConfusion h⟩

/-- C3 amended: an empty prediction list yields the BadResponseBody error
"no images generated"; a nonempty prediction list always succeeds, keeping
exactly the predictions that were not content-filtered (so a fully filtered
response succeeds with an empty list), with usage of 258 tokens per kept
image. -/
theorem geminiImageHandler_empty_vs_filtered (created : Int)
    (resp : GeminiImageResponse) :
    (resp.predictions = [] →
      geminiImageHandler created resp =
        .error { code := .badResponseBody, message := str "no images generated" }) ∧
    (resp.predictions ≠ [] →
      geminiImageHandler created resp =
        .ok ({ created := created,
               data := (acceptedPredictions resp).map
                 (fun p => { b64Json := p.bytesBase64Encoded }) },
             { promptTokens := imageTokens * ((acceptedPredictions resp).length : Int),
               completionTokens := 0,
               totalTokens := imageTokens * ((acceptedPredictions resp).length : Int) })) := by
  constructor
  · intro h
    simp [geminiImageHandler, h]
  · intro h
    have h0 : ¬ resp.predictions.length = 0 := by
      simpa [List.length_eq_zero] using h
    simp only [geminiImageHandler, if_neg h0]
    rw [imageFoldl_eq]
    simp [acceptedPredictions]

/-- C3 witness: on the mixed response with one filtered and one unfiltered
prediction, the amended theorem yields success with only the unfiltered
image and 258 prompt tokens. -/
theorem geminiImageHandler_empty_vs_filtered_witness :
    geminiImageHandler 0 mixedResponse =
      .ok ({ created := 0, data := [{ b64Json := str "a2VwdA==" }] },
           { promptTokens := 258, completionTokens := 0, totalTokens := 258 }) :=
  (geminiImageHandler_empty_vs_filtered 0 mixedResponse).2 (by decide)

/-- C8: whenever the image handler succeeds, the returned usage is the fixed
258-token constant times the number of kept images, completion tokens are
zero, the total equals the prompt-token count, and the number of kept images
is exactly the number of predictions that were not content-filtered. -/
theorem geminiImageHandler_usage (created : Int) (resp : GeminiImageResponse)
    (r : ImageResponse × Usage)
    (h : geminiImageHandler created resp = .ok r) :
    r.2.promptTokens = imageTokens * (r.1.data.length : Int) ∧
    r.2.completionTokens = 0 ∧
    r.2.totalTokens = r.2.promptTokens ∧
    r.1.data.length = (acceptedPredictions resp).length := by
  unfold geminiImageHandler at h
  by_cases h0 : resp.predictions.length = 0
  · rw [if_pos h0] at h
    exact Except.noConfusion h
  · rw [if_neg h0] at h
    injection h with h1
    subst h1
    refine ⟨rfl, rfl, rfl, ?_⟩
    rw [imageFoldl_eq]
    simp [acceptedPredictions]

/-- C8 witness: the usage law evaluated on the mixed response, whose handler
result keeps one image. -/
theorem geminiImageHandler_usage_witness :
    (258 : Int) = imageTokens *
      (([({ b64Json := str "a2VwdA==" } : ImageData)] : List ImageData).length : Int) ∧
    (0 : Int) = 0 ∧
    (258 : Int) = (258 : Int) ∧
    ([({ b64Json := str "a2VwdA==" } : ImageData)] : List ImageData).length =
      (acceptedPredictions mixedResponse).length :=
  geminiImageHandler_usage 0 mixedResponse
    ({ created := 0, data := [{ b64Json := str "a2VwdA==" }] },
     { promptTokens := 258, completionTokens := 0, totalTokens := 258 })
    (by rfl)

/-- C4: whenever caching is active for the request and the stored handle is
not positively confirmed by the upstream existence check — the store errors,
the stored value is empty, the existence check fails, or it reports the
handle missing — GetOrCreateGeminiCache never returns the stored handle and
never surfaces a cache-layer error: its result is exactly the result of the
create-new call, for any store and upstream behaviour. -/
theorem getOrCreateGeminiCache_degrades_to_create
    (redisEnabled : Bool) (md5 : Str → Str) (storeGet : Except Str Str)
    (lookup : Str → Except Str Bool) (create : Except Str Str)
    (channelID : Int) (model : Str) (request : GeminiChatRequest)
    (hEnable : shouldEnableGeminiCache true model request.contents = true)
    (hNoConfirm : ∀ v, storeGet = .ok v → v ≠ [] → lookup v ≠ .ok true) :
    (getOrCreateGeminiCache true redisEnabled md5 storeGet lookup create
        channelID model request).result = create := by
  cases storeGet with
  | error e =>
    cases redisEnabled <;> cases create <;>
      simp [getOrCreateGeminiCache, hEnable]
  | ok v =>
    by_cases hv : v = []
    · subst hv
      cases redisEnabled <;> cases create <;>
        simp [getOrCreateGeminiCache, hEnable]
    · have hlk := hNoConfirm v rfl hv
      cases hlkv : lookup v with
      | error e =>
        cases redisEnabled <;> cases create <;>
          simp [getOrCreateGeminiCache, hEnable, hv, hlkv]
      | ok b =>
        cases b with
        | true => exact absurd hlkv hlk
        | false =>
          cases redisEnabled <;> cases create <;>
            simp [getOrCreateGeminiCache, hEnable, hv, hlkv]

/-- C4 witness: with caching active (a 4096-token user content), a stored
stale handle whose existence check reports it missing, and a creation call
returning a fresh handle, the call returns the fresh handle, not the stale
one and not an error. -/
theorem getOrCreateGeminiCache_degrades_to_create_witness :
    (getOrCreateGeminiCache true true (fun _ => str "feedc0de")
        (.ok (str "cachedContents/stale")) (fun _ => .ok false)
        (.ok (str "cachedContents/fresh")) 7 (str "gemini-1.5-pro")
        bigUserRequest).result = .ok (str "cachedContents/fresh") :=
  getOrCreateGeminiCache_degrades_to_create true (fun _ => str "feedc0de")
    (.ok (str "cachedContents/stale")) (fun _ => .ok false)
    (.ok (str "cachedContents/fresh")) 7 (str "gemini-1.5-pro")
    bigUserRequest (bigUserRequest_cache_enabled (str "gemini-1.5-pro"))
    (by
      intro v hget hv
      injection hget with hv2
      subst hv2
      intro hcontra
      injection hcontra with hb
      exact Bool.noConfusion hb)

/-- C9: evaluating the channel-scoped store write of the first cache module
at channel id 5. The write does happen with the one-hour TTL and the raw
handle as value, but its key is the string gemini_cache:%!s(int=5):feedc0de
— the %s verb of the format string applied to the int channel id produces
the wrong-verb notation — and not the claimed gemini_cache:5:feedc0de. -/
theorem geminiRedisKey_wrong_verb :
    (getOrCreateGeminiCache true true (fun _ => str "feedc0de")
        (.error (str "redis: nil")) (fun _ => .ok false)
        (.ok (str "cachedContents/new1")) 5 (str "gemini-1.5-pro")
        bigUserRequest).writes =
      [{ key := str "gemini_cache:%!s(int=5):feedc0de",
         value := str "cachedContents/new1", ttlSeconds := 3600 }] ∧
    geminiRedisKey 5 (str "feedc0de") ≠ str "gemini_cache:5:feedc0de" := by
  constructor
  · have hen := bigUserRequest_cache_enabled (str "gemini-1.5-pro")
    simp only [getOrCreateGeminiCache, hen]
    decide
  · decide

/-- C10: the four-result GetOrCreateGeminiCache is not total: for every
request whose SystemInstructions pointer is nil, the call panics inside
CountTokensFromParts (line 31 dereferences the nil pointer) before the nil
guard of line 36 is reached, for every configuration and every store and
upstream behaviour — instead of returning the empty handle with
created=false and estimatedTokens=0 as the claim states. -/
theorem part000_getOrCreate_nil_system_panics
    (enableCache redisEnabled : Bool) (jsonHash : GeminiChatContent → Str)
    (parseCacheName : Str → Str) (storeGet : Except Str Str)
    (lookup : Str → Except Str Bool) (create : Except Str Str)
    (channelID : Int) (model : Str) (request : GeminiChatRequest)
    (h : request.systemInstructions = none) :
    part000.getOrCreateGeminiCache enableCache redisEnabled jsonHash
      parseCacheName storeGet lookup create channelID model request = none := by
  unfold part000.getOrCreateGeminiCache
  rw [h]
  rfl

/-- C10 witness: the panic result evaluated on a concrete request without
system instructions. -/
theorem part000_getOrCreate_nil_system_panics_witness :
    part000.getOrCreateGeminiCache true true (fun _ => str "h")
      (fun v => v) (.ok (str "x")) (fun _ => .ok true) (.ok (str "y"))
      3 (str "gemini-1.5-pro")
      { contents := [], systemInstructions := none } = none :=
  part000_getOrCreate_nil_system_panics true true (fun _ => str "h")
    (fun v => v) (.ok (str "x")) (fun _ => .ok true) (.ok (str "y"))
    3 (str "gemini-1.5-pro")
    { contents := [], systemInstructions := none } rfl

/-- Folding the spec word counter over n copies of the two-character block
of one letter and one newline counts n words and ends outside a word. -/
theorem specWordCount_fold_replicate (n : Nat) : ∀ k : Nat,
    List.foldl
      (fun (st : Nat × Bool) c =>
        if isWhitespaceChar c then (st.1, false)
        else if st.2 then st else (st.1 + 1, true))
      ((k, false) : Nat × Bool)
      ((List.replicate n (['a', '\n'] : Str)).flatten) = (k + n, false) := by
  induction n with
  | zero => intro k; simp
  | succ n ih =>
    intro k
    rw [List.replicate_succ, List.flatten_cons, List.cons_append, List.cons_append,
      List.nil_append, List.foldl_cons, List.foldl_cons]
    show List.foldl
      (fun (st : Nat × Bool) c =>
        if isWhitespaceChar c then (st.1, false)
        else if st.2 then st else (st.1 + 1, true))
      ((k + 1, false) : Nat × Bool)
      ((List.replicate n (['a', '\n'] : Str)).flatten) = (k + (n + 1), false)
    rw [ih (k + 1), Nat.add_assoc, Nat.add_comm 1 n]

/-- The whitespace-delimited word count of the newline-separated text is
4096. -/
theorem specWordCount_newline : specWordCount newlineWordsText = 4096 := by
  unfold specWordCount newlineWordsText
  rw [specWordCount_fold_replicate 4096 0]

/-- The newline-separated text is nonempty. -/
theorem newlineWordsText_ne_nil : newlineWordsText ≠ [] := by
  unfold newlineWordsText
  rw [show (4096 : Nat) = 4095 + 1 from rfl, List.replicate_succ,
    List.flatten_cons, List.cons_append]
  exact List.cons_ne_nil _ _

/-- The newline-separated text holds no space character. -/
theorem newlineWordsText_no_space : ∀ c ∈ newlineWordsText, ¬ c = ' ' := by
  intro c hc
  unfold newlineWordsText at hc
  rcases List.mem_flatten.1 hc with ⟨l, hl, hcl⟩
  rcases List.mem_replicate.1 hl with ⟨-, rfl⟩
  simp only [List.mem_cons, List.not_mem_nil, or_false] at hcl
  rcases hcl with rfl | rfl <;> decide

/-- The source token estimate of the newline-separated text is 1: the text
holds no space, so splitting on the space separator leaves one piece. -/
theorem newlineWordsContents_tokens : countTokensFromParts newlineWordsContents = 1 :=
  calc countTokensFromParts newlineWordsContents
      = (goSplitChar ' ' newlineWordsText).length :=
        countTokensFromParts_single (str "user")
          { text := newlineWordsText, inlineData := none, fileData := none }
          newlineWordsText_ne_nil
    _ = 1 := by rw [goSplitChar_no_sep newlineWordsText newlineWordsText_no_space]; rfl

/-- The spec-side token estimate of a request with one single-part content is
the word count of that part. -/
theorem specTokenEstimate_single (role : Str) (p : GeminiPart) :
    specTokenEstimate [{ role := role, parts := [p] }] = specWordCount p.text := by
  show 0 + specWordCount p.text = specWordCount p.text
  rw [Nat.zero_add]

/-- C5 counterexample: a content whose whitespace-delimited word count is
4096 — at the threshold, so the claim says caching is enabled — for which
ShouldEnableGeminiCache returns false with caching switched on, because the
source estimate splits on the space character only and sees one token. -/
theorem shouldEnableGeminiCache_whitespace_counterexample :
    geminiCacheMinTokenThreshold ≤ specTokenEstimate newlineWordsContents ∧
    shouldEnableGeminiCache true (str "gemini-1.5-pro") newlineWordsContents = false := by
  have hs : specTokenEstimate newlineWordsContents = 4096 :=
    calc specTokenEstimate newlineWordsContents
        = specWordCount newlineWordsText :=
          specTokenEstimate_single (str "user")
            { text := newlineWordsText, inlineData := none, fileData := none }
      _ = 4096 := specWordCount_newline
  constructor
  · rw [hs]
    decide
  · unfold shouldEnableGeminiCache
    rw [newlineWordsContents_tokens]
    rfl

/-- C5 amended: with the token estimate defined as the source defines it —
per nonempty text part, the number of pieces of a split on the space
character — ShouldEnableGeminiCache returns true exactly when caching is
enabled and the estimate reaches the 4096 threshold; below the threshold it
returns false even with caching enabled. -/
theorem shouldEnableGeminiCache_threshold (enableCache : Bool) (model : Str)
    (contents : List GeminiChatContent) :
    shouldEnableGeminiCache enableCache model contents =
      (enableCache && decide (geminiCacheMinTokenThreshold ≤ countTokensFromParts contents)) := by
  cases enableCache with
  | false => rfl
  | true =>
    show (if countTokensFromParts contents < geminiCacheMinTokenThreshold
          then false else true) = _
    by_cases h : countTokensFromParts contents < geminiCacheMinTokenThreshold
    · rw [if_pos h, decide_eq_false (Nat.not_le.mpr h)]
      rfl
    · rw [if_neg h, decide_eq_true (Nat.le_of_not_lt h)]
      rfl

/-- The floor of one half is zero. -/
theorem floorHalf : ⌊(1 : ℚ) / 2⌋ = 0 := by
  rw [Int.floor_eq_iff]
  constructor <;> norm_num

/-- The ceiling of minus one half is zero. -/
theorem ceilNegHalf : ⌈(-(1 / 2) : ℚ)⌉ = 0 := by
  rw [Int.ceil_eq_iff]
  constructor <;> norm_num

/-- The embedded math.Round is the identity on integer-valued rationals. -/
theorem goRound_intCast (n : ℤ) : goRound ((n : ℤ) : ℚ) = n := by
  unfold goRound
  by_cases h : (0 : ℚ) ≤ ((n : ℤ) : ℚ)
  · rw [if_pos h, Int.floor_int_add, floorHalf, add_zero]
  · rw [if_neg h, sub_eq_add_neg, add_comm ((n : ℤ) : ℚ) (-(1 / 2)),
      Int.ceil_add_int, ceilNegHalf, zero_add]

/-- C6 amended: for ratio pricing the quota is
round(round(p + round(c times completionRatio)) times modelRatio), floored to
1 exactly when the model ratio is nonzero and the result is at most 0; with
model ratio 0 the quota is 0 and the floor is not applied; for flat pricing
the quota is the model price times the quota unit truncated toward zero (the
Go int conversion); and the worked example with p=100, c=50, ratio 2 and
model ratio one half yields 100. -/
theorem computeTestQuota_spec (pd : PriceData) (qpu : ℚ) (p c : ℤ) :
    (pd.usePrice = false →
      computeTestQuota pd qpu p c =
        (if pd.modelRatio ≠ 0 ∧
            goRound (((goRound ((p : ℚ) +
              ((goRound ((c : ℚ) * pd.completionRatio) : ℤ) : ℚ))) : ℚ) *
                pd.modelRatio) ≤ 0
         then 1
         else goRound (((goRound ((p : ℚ) +
              ((goRound ((c : ℚ) * pd.completionRatio) : ℤ) : ℚ))) : ℚ) *
                pd.modelRatio))) ∧
    (pd.usePrice = false → pd.modelRatio = 0 → computeTestQuota pd qpu p c = 0) ∧
    (pd.usePrice = true → computeTestQuota pd qpu p c = goTruncToInt (pd.modelPrice * qpu)) ∧
    computeTestQuota { usePrice := false, modelRatio := 1 / 2, completionRatio := 2, modelPrice := 0 } 1 100 50 = 100 := by
  have key : goRound ((p : ℚ) + ((goRound ((c : ℚ) * pd.completionRatio) : ℤ) : ℚ)) =
      p + goRound ((c : ℚ) * pd.completionRatio) := by
    rw [show ((p : ℚ) + ((goRound ((c : ℚ) * pd.completionRatio) : ℤ) : ℚ)) =
        (((p + goRound ((c : ℚ) * pd.completionRatio) : ℤ)) : ℚ) by push_cast; ring,
      goRound_intCast]
  have hr0 : goRound (0 : ℚ) = 0 := by simpa using goRound_intCast 0
  refine ⟨?_, ?_, ?_, ?_⟩
  · intro h
    unfold computeTestQuota
    rw [h, key]
    rfl
  · intro h hm
    unfold computeTestQuota
    rw [h, hm]
    show (if (0 : ℚ) ≠ 0 ∧
        goRound ((((p + goRound ((c : ℚ) * pd.completionRatio) : ℤ)) : ℚ) * 0) ≤ 0
      then 1
      else goRound ((((p + goRound ((c : ℚ) * pd.completionRatio) : ℤ)) : ℚ) * 0)) = 0
    rw [mul_zero, hr0, if_neg (by simp)]
  · intro h
    unfold computeTestQuota
    rw [h]
    rfl
  · have e1 : goRound (((50 : ℤ) : ℚ) * 2) = 100 := by
      rw [show (((50 : ℤ) : ℚ) * 2) = ((100 : ℤ) : ℚ) by push_cast; norm_num,
        goRound_intCast]
    unfold computeTestQuota
    show (if ((1 : ℚ) / 2) ≠ 0 ∧
        goRound ((((100 : ℤ) + goRound (((50 : ℤ) : ℚ) * 2) : ℤ) : ℚ) * ((1 : ℚ) / 2)) ≤ 0
      then 1
      else goRound ((((100 : ℤ) + goRound (((50 : ℤ) : ℚ) * 2) : ℤ) : ℚ) * ((1 : ℚ) / 2))) = 100
    rw [e1]
    have e2 : goRound ((((100 : ℤ) + (100 : ℤ) : ℤ) : ℚ) * ((1 : ℚ) / 2)) = 100 := by
      rw [show ((((100 : ℤ) + (100 : ℤ) : ℤ) : ℚ) * ((1 : ℚ) / 2)) = ((100 : ℤ) : ℚ) by
        push_cast; norm_num, goRound_intCast]
    rw [e2, if_neg (by norm_num)]

/-- C6 witness: with model ratio 0 and ratio pricing, the quota is 0 — the
floor-to-1 rule does not apply. -/
theorem computeTestQuota_spec_witness :
    computeTestQuota { usePrice := false, modelRatio := 0, completionRatio := 2, modelPrice := 0 } 1 100 50 = 0 :=
  (computeTestQuota_spec { usePrice := false, modelRatio := 0, completionRatio := 2, modelPrice := 0 } 1 100 50).2.1 rfl rfl

/-- C6 counterexample: with flat pricing, model price one half and quota
unit 1, the recorded quota is 0 — the Go int conversion truncates — and not
the exact product one half that the claim asserts. -/
theorem computeTestQuota_flat_counterexample :
    computeTestQuota { usePrice := true, modelRatio := 1, completionRatio := 1, modelPrice := 1 / 2 } 1 0 0 = 0 ∧
    ¬ ((computeTestQuota { usePrice := true, modelRatio := 1, completionRatio := 1, modelPrice := 1 / 2 } 1 0 0 : ℚ) = (1 / 2 : ℚ) * 1) := by
  have h0 : computeTestQuota { usePrice := true, modelRatio := 1, completionRatio := 1, modelPrice := 1 / 2 } 1 0 0 = 0 := by
    unfold computeTestQuota
    show goTruncToInt ((1 / 2 : ℚ) * 1) = 0
    unfold goTruncToInt
    rw [if_pos (by norm_num), mul_one, floorHalf]
  refine ⟨h0, ?_⟩
  rw [h0]
  norm_num

/-- C7 counterexample: with the thinking adapter disabled in the settings, a
model name carrying the -thinking suffix keeps it in the upstream URL, so
the claim, which asserts the suffix is always stripped, fails on this
input. -/
theorem getRequestURL_flag_off_counterexample :
    (getRequestURL false (fun _ => str "v1beta") { originModelName := str "gemini-2.0-flash-thinking", upstreamModelName := str "gemini-2.0-flash-thinking", baseUrl := str "https://g", isStream := false }).1 =
      str "https://g/v1beta/models/gemini-2.0-flash-thinking:generateContent" ∧
    ¬ ((getRequestURL false (fun _ => str "v1beta") { originModelName := str "gemini-2.0-flash-thinking", upstreamModelName := str "gemini-2.0-flash-thinking", baseUrl := str "https://g", isStream := false }).1 =
      str "https://g/v1beta/models/gemini-2.0-flash:generateContent") := by
  constructor
  · rfl
  · decide

/-- C7 amended: when the thinking adapter is enabled, GetRequestURL builds
the URL from the upstream model name with the thinking suffix stripped by
the three source rules, rewrites the upstream model name to that base name,
and leaves the origin model name and every other context field unchanged; a
name without any of the three patterns passes through unchanged. -/
theorem getRequestURL_thinking_enabled (version : Str → Str) (info : RelayInfo) :
    getRequestURL true version info =
      (buildGeminiURL version info.baseUrl (stripThinkingSuffix info.upstreamModelName)
          info.isStream,
       { info with upstreamModelName := stripThinkingSuffix info.upstreamModelName }) := by
  unfold getRequestURL stripThinkingSuffix buildGeminiURL
  by_cases h1 : goContains info.upstreamModelName (str "-thinking-") = true
  · simp [h1]
  · by_cases h2 : (str "-thinking").isSuffixOf info.upstreamModelName = true
    · simp [h1, h2]
    · by_cases h3 : (str "-nothinking").isSuffixOf info.upstreamModelName = true
      · simp [h1, h2, h3]
      · simp [h1, h2, h3]
